import Mathlib

/-!
Verification development for the spinup provisioning service.

The Go sources are shallowly embedded: external effects (TCP dial attempts,
process execution, the JWT library, JSON decoding, sqlite calls) are passed
in as explicit outcome oracles, and the handler is modelled as a pure
function from its environment and request to the list of observable events
it performs (HTTP writes, the port scan, rendering, launching, persisting,
and process termination via log.Fatal).
-/

/-- Outcome of one `net.DialTimeout("tcp", "localhost:port", 3s)` attempt in
`portcheck`: the connection succeeds (something is listening), is actively
refused (error containing "connect: connection refused"), or fails with any
other error. -/
inductive DialOutcome where
  | success
  | refused
  | otherError (msg : String)
deriving Repr, DecidableEq

/-- True exactly on the `otherError` outcome. -/
def DialOutcome.isOther : DialOutcome → Bool
  | .otherError _ => true
  | _ => false

/-- Result of `portcheck() (int, error)`: a free port `(p, nil)`, an early
`(0, err)` return on a dial error other than refusal, or the final
`(0, "error all allocated ports are occupied")` return. -/
inductive PortResult where
  | ok (port : Nat)
  | scanError (port : Nat) (msg : String)
  | exhausted
deriving Repr, DecidableEq

/-- The loop body of `portcheck` over the remaining candidate ports, given
the dial outcome at each port. Mirrors the three-way branch in the source:
a non-refusal error returns `(0, err)`; a refusal returns the port; a
successful dial falls through to the next candidate. -/
def portcheckList (f : Nat → DialOutcome) : List Nat → PortResult
  | [] => .exhausted
  | p :: rest =>
    match f p with
    | .otherError m => .scanError p m
    | .refused => .ok p
    | .success => portcheckList f rest

/-- The candidate ports scanned by `portcheck`: `for startingPort := 5432;
startingPort < 5440; startingPort++`, i.e. 5432..5439 in ascending order. -/
def portRange : List Nat := List.range' 5432 8

/-- The `portcheck` function of src/unnamed/part_000 (lines 258-274),
parameterised by the dial outcome at each candidate port. -/
def portcheck (f : Nat → DialOutcome) : PortResult :=
  portcheckList f portRange

example : portcheck (fun _ => .success) = .exhausted := by decide

example : portcheck (fun p => if p = 5434 then .refused else .success) = .ok 5434 := by
  decide

example : portcheck (fun p => if p = 5432 then .otherError "timeout" else .refused) =
    .scanError 5432 "timeout" := by decide

/-- The `dbCluster` struct of src/unnamed/part_000 (lines 91-100). Go's
`int`/`uint` fields hold only the nonnegative values this program ever
writes (ports come from `portcheck`, which returns 0 or a value in
5432..5439), so they are modelled as `Nat`. -/
structure dbCluster where
  Name : String
  ID : String
  «Type» : String
  Port : Nat
  MajVersion : Nat
  MinVersion : Nat
  Memory : String
  Storage : String
deriving Repr, DecidableEq

/-- The `service` struct of src/unnamed/part_000 (lines 82-89):
`time.Duration` is an integer count of nanoseconds. -/
structure service where
  Duration : Int
  UserID : String
  Architecture : String
  Db : dbCluster
deriving Repr, DecidableEq

/-- The `serviceResponse` struct of src/unnamed/part_000 (lines 102-106). -/
structure serviceResponse where
  HostName : String
  Port : Nat
  ContainerID : String
deriving Repr, DecidableEq

/-- True when the first list is a prefix of the second. -/
def beginsWith : List Char → List Char → Bool
  | [], _ => true
  | _ :: _, [] => false
  | a :: as, b :: bs => a = b && beginsWith as bs

/-- Body of the Go `strings.Split` model over character lists, with fuel
for termination; the fuel never runs out when it starts at the input's
length. At each position, a nonempty separator occurring there closes the
current piece and skips the separator; otherwise the character joins the
current piece. -/
def goSplitAux (sep : List Char) : Nat → List Char → List Char → List (List Char)
  | _, [], acc => [acc.reverse]
  | 0, l, acc => [acc.reverse ++ l]
  | fuel + 1, c :: rest, acc =>
    if sep ≠ [] ∧ beginsWith sep (c :: rest) then
      acc.reverse :: goSplitAux sep fuel (List.drop (sep.length - 1) rest) []
    else
      goSplitAux sep fuel rest (c :: acc)

/-- Go's `strings.Split(s, sep)` for a nonempty separator: the pieces of
`s` around each non-overlapping occurrence of `sep`, as a nonempty list. -/
def goSplit (s sep : String) : List String :=
  (goSplitAux sep.data s.data.length s.data []).map List.asString

example : goSplit "Bearer tok" "Bearer " = ["", "tok"] := by decide

example : goSplit "tok" "Bearer " = ["tok"] := by decide

example : goSplit "aXbXc" "X" = ["a", "b", "c"] := by decide

/-- The `validateToken` function of src/unnamed/part_000 (lines 285-296),
parameterised by the behaviour of the `JWTToString` collaborator (JWT
parsing and signature verification, outside src/). `strings.Split(h,
"Bearer ")` is `goSplit`; fewer than two pieces means the header lacked
the "Bearer " separator. -/
def validateToken (jwt : String → Except String String) (authHeader : String) :
    Except String String :=
  let splitToken := goSplit authHeader "Bearer "
  if splitToken.length < 2 then
    .error "cannot validate empty token"
  else
    match jwt (splitToken.getD 1 "") with
    | .error e => .error e
    | .ok userID => .ok userID

/-- The `lastContainerID` function of src/unnamed/part_000 (lines 276-283),
parameterised by the container engine: `engine cmd` is the
`CombinedOutput`-with-error of running `cmd` through `/bin/bash -c`. The
source propagates a command error and otherwise returns the raw output
string unconditionally — there is no emptiness check. -/
def lastContainerID (engine : String → Except String String) : Except String String :=
  match engine "docker ps --last 1 -q" with
  | .error e => .error e
  | .ok output => .ok output

/-- Outcomes of the four fallible sqlite steps inside `updateSqliteDB`
(`sql.Open`, `db.Begin`, `tx.Prepare`, `stmt.Exec`). The `create table if
not exists` exec only logs its error and the `tx.Commit` error is ignored,
so neither needs an outcome here. -/
structure DbEnv where
  openOk : Bool
  beginOk : Bool
  prepareOk : Bool
  execOk : Bool
deriving Repr, DecidableEq

/-- Observable events of one request: HTTP error writes (`http.Error`),
plain body writes (`fmt.Fprintf`), the successful response write
(`w.Write` of the marshalled `serviceResponse`), invocation of the port
scan, of `prepareService` (mkdir + compose render), of `startService`
(docker-compose validate/up), the sqlite insert, and process termination
through `log.Fatal`. -/
inductive Event where
  | wroteError (status : Nat) (msg : String)
  | wrote (msg : String)
  | wroteResponse (r : serviceResponse)
  | portScan (result : PortResult)
  | prepare (s : service) (path : String)
  | start (s : service) (path : String)
  | persist (path : String) (dbName : String) (data : service)
  | fatal (msg : String)
deriving Repr, DecidableEq

/-- The `updateSqliteDB` function of src/unnamed/part_000 (lines 298-325):
every failing step calls `log.Fatal`, which terminates the whole process.
Returns the emitted events and whether control returns to the caller. -/
def updateSqliteDB (db : DbEnv) (path : String) (dbName : String) (data : service) :
    List Event × Bool :=
  if !db.openOk then ([.fatal "sql open"], false)
  else if !db.beginOk then ([.fatal "db begin"], false)
  else if !db.prepareOk then ([.fatal "tx prepare"], false)
  else if !db.execOk then ([.fatal "stmt exec"], false)
  else ([.persist path dbName data], true)

/-- Environment of one `CreateService` call: the process configuration read
at startup (`architecture`, `projectDir`), and the outcome oracles for
every external effect the handler performs, in the source's order. -/
structure Env where
  architecture : String
  projectDir : String
  jwt : String → Except String String
  readBody : Except String Unit
  unmarshal : Except String service
  dialOutcomes : Nat → DialOutcome
  prepareResult : Except String Unit
  startResult : Except String Unit
  engine : String → Except String String
  marshalOk : Bool
  db : DbEnv

/-- An inbound HTTP request as `CreateService` observes it: its method and
its `Authorization` header (the body is reflected in `Env.readBody` and
`Env.unmarshal`). -/
structure Request where
  method : String
  authHeader : String

/-- The value `s.Db.Port` holds after `s.Db.Port, err = portcheck()`:
the scanned port on success, and Go's zero value 0 on either error
return. -/
def allocatedPort : PortResult → Nat
  | .ok p => p
  | _ => 0

/-- The authenticated subject the handler compares `s.UserID` against:
`userId` from `validateToken`, which is the empty string whenever
validation failed (the Go error branch leaves `userId` at its zero
value). -/
def authUserId (env : Env) (req : Request) : String :=
  match validateToken env.jwt req.authHeader with
  | .ok u => u
  | .error _ => ""

/-- Events written before the body is read: `CreateService` writes a 500
on token-validation failure but does not return there. -/
def authEvents (env : Env) (req : Request) : List Event :=
  match validateToken env.jwt req.authHeader with
  | .ok _ => []
  | .error _ => [.wroteError 500 "error validating token"]

/-- The `CreateService` handler of src/unnamed/part_000 (lines 112-188) as
an event trace. Faithful points: the token-failure branch writes an error
but falls through; read/unmarshal failures call `log.Fatalf`; the error
returned by `portcheck` is assigned to `err` but never checked before
`err` is reassigned by `prepareService`; the response is written only
after `updateSqliteDB` returns (which it does not on its fatal paths). -/
def createService (env : Env) (req : Request) : List Event :=
  if req.method ≠ "POST" then
    [.wroteError 405 "Invalid Method"]
  else
    let userId := authUserId env req
    let tokEvents := authEvents env req
    match env.readBody with
    | .error _ => tokEvents ++ [.fatal "reading from readall body"]
    | .ok _ =>
      match env.unmarshal with
      | .error _ => tokEvents ++ [.fatal "reading from readall body"]
      | .ok s0 =>
        if s0.UserID ≠ userId then
          tokEvents ++ [.wroteError 500 "userid doesn't match"]
        else if s0.Db.«Type» ≠ "postgres" then
          tokEvents ++ [.wrote ("currently we don't support " ++ s0.Db.«Type»),
            .wroteError 500 "db type is currently not supported"]
        else
          let pr := portcheck env.dialOutcomes
          let port := allocatedPort pr
          let s1 : service :=
            { s0 with Db := { s0.Db with Port := port }, Architecture := env.architecture }
          let servicePath := env.projectDir ++ "/" ++ s1.UserID ++ "/" ++ s1.Db.Name
          let ev1 := tokEvents ++ [.portScan pr, .prepare s1 servicePath]
          match env.prepareResult with
          | .error _ => ev1 ++ [.wroteError 500 "Error preparing service"]
          | .ok _ =>
            let ev2 := ev1 ++ [.start s1 servicePath]
            match env.startResult with
            | .error _ => ev2 ++ [.wroteError 500 "Error starting service"]
            | .ok _ =>
              match lastContainerID env.engine with
              | .error _ => ev2 ++ [.wroteError 500 "Error getting container id"]
              | .ok containerID =>
                let s2 : service := { s1 with Db := { s1.Db with ID := containerID } }
                let serRes : serviceResponse :=
                  { HostName := "localhost", Port := s1.Db.Port, ContainerID := containerID }
                if !env.marshalOk then
                  ev2 ++ [.wroteError 500 "Internal server error "]
                else
                  let dbRes := updateSqliteDB env.db (env.projectDir ++ "/" ++ s2.UserID)
                    s2.UserID s2
                  if dbRes.2 then ev2 ++ dbRes.1 ++ [.wroteResponse serRes]
                  else ev2 ++ dbRes.1

/-- Events that constitute a provisioning side effect: scanning for a
port, rendering (prepareService), launching (startService), or writing a
cluster record. -/
def Event.isEffect : Event → Bool
  | .portScan _ => true
  | .prepare _ _ => true
  | .start _ _ => true
  | .persist _ _ _ => true
  | _ => false

/-- True exactly on a `prepare` (rendering) event. -/
def Event.isPrepare : Event → Bool
  | .prepare _ _ => true
  | _ => false

/-- True exactly on a `start` (launch) event. -/
def Event.isStart : Event → Bool
  | .start _ _ => true
  | _ => false

/-- True exactly on a `persist` (cluster record) event. -/
def Event.isPersist : Event → Bool
  | .persist _ _ _ => true
  | _ => false

/-- Modelled from the spec: the tunnel information attached to a `Service`
("any tunnel/auth secret associated with the tenant", §4.2); only its
`Secret` field is read by `createDockerComposeFile` in src/api/helpers.go
and the struct's declaration is not under src/. -/
structure TunnelInfo where
  Secret : String
deriving Repr, DecidableEq

/-- Modelled from the spec: the `Service` struct used by
src/api/helpers.go, whose declaration is not under src/. It carries the
fields that file reads (`UserID`, `Architecture`, `Name`,
`Tunnel.Secret`) together with the §3 `DatabaseResource` sub-record
(`Db`), whose assigned port is filled in during allocation. -/
structure Service where
  UserID : String
  Architecture : String
  Name : String
  Tunnel : TunnelInfo
  Db : dbCluster
deriving Repr, DecidableEq

/-- The anonymous data struct built by `createDockerComposeFile`
(src/api/helpers.go lines 123-137) and handed to `templ.Execute`. -/
structure ComposeData where
  Path : String
  UserID : String
  Architecture : String
  Name : String
  Port : Nat
  Secret : String
deriving Repr, DecidableEq

/-- The substitution values `createDockerComposeFile` passes into the
template, copied from src/api/helpers.go lines 130-137: the `Port` field
is the literal `5432`, not a value taken from the service request. -/
def composeData (projectDir : String) (s : Service) : ComposeData :=
  { Path := projectDir
    UserID := s.UserID
    Architecture := s.Architecture
    Name := s.Name
    Port := 5432
    Secret := s.Tunnel.Secret }

/-- One piece of the parsed `docker-compose-template.yml`: either literal
text or a reference to one of the six fields the data struct exposes. -/
inductive TemplatePart where
  | lit (text : String)
  | varPath
  | varUserID
  | varArchitecture
  | varName
  | varPort
  | varSecret
deriving Repr, DecidableEq

/-- Text/template substitution of one part against the data struct. -/
def TemplatePart.render (d : ComposeData) : TemplatePart → String
  | .lit text => text
  | .varPath => d.Path
  | .varUserID => d.UserID
  | .varArchitecture => d.Architecture
  | .varName => d.Name
  | .varPort => toString d.Port
  | .varSecret => d.Secret

/-- The bytes `templ.Execute` writes for a parsed template against a data
struct: the concatenation of each part's substitution. -/
def renderTemplate (t : List TemplatePart) (d : ComposeData) : String :=
  String.join (t.map (TemplatePart.render d))

/-- The `createDockerComposeFile` function of src/api/helpers.go (lines
108-143) as the bytes written to `docker-compose.yml`: the parsed template
rendered against `composeData projectDir s`. -/
def createDockerComposeFile (t : List TemplatePart) (projectDir : String) (s : Service) :
    String :=
  renderTemplate t (composeData projectDir s)

/-- The database request of the README example: a postgres 9.6 cluster. -/
def exDb : dbCluster :=
  { Name := "pg1", ID := "", «Type» := "postgres", Port := 0,
    MajVersion := 9, MinVersion := 6, Memory := "32MB", Storage := "200" }

/-- A decoded request body for tenant `u1`. -/
def exReq : service :=
  { Duration := 200, UserID := "u1", Architecture := "", Db := exDb }

/-- A sqlite environment in which every step succeeds. -/
def okDb : DbEnv := { openOk := true, beginOk := true, prepareOk := true, execOk := true }

/-- A fully healthy environment: valid token for `u1`, readable body
decoding to `exReq`, the first candidate port free, docker-compose and
sqlite all succeeding, and the engine reporting container `abc123`. -/
def baseEnv : Env :=
  { architecture := "amd64"
    projectDir := "/prj"
    jwt := fun _ => .ok "u1"
    readBody := .ok ()
    unmarshal := .ok exReq
    dialOutcomes := fun _ => .refused
    prepareResult := .ok ()
    startResult := .ok ()
    engine := fun _ => .ok "abc123"
    marshalOk := true
    db := okDb }

/-- A well-formed POST request carrying a bearer token. -/
def postReq : Request := { method := "POST", authHeader := "Bearer tok" }

example : createService baseEnv postReq =
    [Event.portScan (.ok 5432),
     Event.prepare { exReq with Architecture := "amd64", Db := { exDb with Port := 5432 } }
       "/prj/u1/pg1",
     Event.start { exReq with Architecture := "amd64", Db := { exDb with Port := 5432 } }
       "/prj/u1/pg1",
     Event.persist "/prj/u1" "u1"
       { exReq with Architecture := "amd64", Db := { exDb with Port := 5432, ID := "abc123" } },
     Event.wroteResponse { HostName := "localhost", Port := 5432, ContainerID := "abc123" }] := by
  decide

/-- A service request carrying allocated port 5433 when it reaches the
renderer. -/
def c1Service : Service :=
  { UserID := "u1", Architecture := "amd64", Name := "pg1",
    Tunnel := { Secret := "sec" }, Db := { exDb with Port := 5433 } }

/-- An environment in which every candidate port accepts the connection:
all of 5432..5439 are occupied. -/
def exhaustEnv : Env := { baseEnv with dialOutcomes := fun _ => .success }

/-- An environment whose request body cannot be read. -/
def badBodyEnv : Env := { baseEnv with readBody := .error "unexpected EOF" }

/-- An environment in which the sqlite insert statement fails. -/
def badDbEnv : Env := { baseEnv with db := { okDb with execOk := false } }

/-- A dial oracle whose first candidate fails with an error that is
neither a success nor an active refusal. -/
def c5Outcomes : Nat → DialOutcome := fun p =>
  if p = 5432 then .otherError "network is unreachable" else .refused

/-- A dial oracle that succeeds below 5433 and is refused at 5433. -/
def c5WitnessOutcomes : Nat → DialOutcome := fun q =>
  if q = 5433 then .refused else .success

/-- A dial oracle with a non-refusal error at 5432 and a refusal at
5433. -/
def c6Outcomes : Nat → DialOutcome := fun p =>
  if p = 5432 then .otherError "i/o timeout"
  else if p = 5433 then .refused
  else .success

/-- A dial oracle where every candidate accepts the connection. -/
def allBusyOutcomes : Nat → DialOutcome := fun _ => .success

/-- An environment whose decoded body names tenant `u2` while the token
authenticates `u1`. -/
def mismatchEnv : Env := { baseEnv with unmarshal := .ok { exReq with UserID := "u2" } }

/-- An environment whose decoded body asks for a mysql cluster. -/
def mysqlEnv : Env :=
  { baseEnv with unmarshal := .ok { exReq with Db := { exDb with «Type» := "mysql" } } }

/-- An environment whose token does not verify while the body names the
empty tenant. -/
def badTokenEnv : Env :=
  { baseEnv with
    jwt := fun _ => .error "crypto/rsa: verification error",
    unmarshal := .ok { exReq with UserID := "" } }

/-- A container engine that answers every query with empty output. -/
def emptyEngine : String → Except String String := fun _ => .ok ""

/-- The healthy environment except that `docker ps --last 1 -q` prints
nothing. -/
def emptyIdEnv : Env := { baseEnv with engine := emptyEngine }

/-- Helper: the events written before the body is read are at most the
single token-failure error write. -/
theorem authEvents_cases (env : Env) (req : Request) :
    authEvents env req = [] ∨
    authEvents env req = [Event.wroteError 500 "error validating token"] := by
  unfold authEvents
  cases validateToken env.jwt req.authHeader with
  | ok u => exact .inl rfl
  | error e => exact .inr rfl

/-- Helper: the scan skips a candidate exactly when its dial succeeds, so
on a sorted candidate list the first candidate whose dial is not a
success determines the scan's result. -/
theorem portcheckList_first (f : Nat → DialOutcome) :
    ∀ l : List Nat, l.Pairwise (· < ·) → ∀ p ∈ l, f p ≠ .success →
      (∀ q ∈ l, q < p → f q = .success) →
      portcheckList f l =
        (match f p with
         | .refused => PortResult.ok p
         | .otherError m => PortResult.scanError p m
         | .success => PortResult.exhausted)
  | [], _, p, hp, _, _ => absurd hp (List.not_mem_nil p)
  | a :: rest, hpair, p, hp, hnp, hpre => by
    have hpc := List.pairwise_cons.mp hpair
    rcases List.mem_cons.mp hp with rfl | hmem
    · cases hfa : f p with
      | success => exact absurd hfa hnp
      | refused => simp [portcheckList, hfa]
      | otherError m => simp [portcheckList, hfa]
    · have halt : a < p := hpc.1 p hmem
      have hfa : f a = .success := hpre a (List.mem_cons_self a rest) halt
      have hstep : portcheckList f (a :: rest) = portcheckList f rest := by
        simp [portcheckList, hfa]
      rw [hstep]
      exact portcheckList_first f rest hpc.2 p hmem hnp
        (fun q hq hlt => hpre q (List.mem_cons_of_mem a hq) hlt)

/-- Helper: when no candidate dial ends in a non-refusal error, the scan
returns the smallest refused candidate, or exhausts the sorted list. -/
theorem portcheckList_no_other (f : Nat → DialOutcome) :
    ∀ l : List Nat, l.Pairwise (· < ·) → (∀ p ∈ l, (f p).isOther = false) →
      (∃ p ∈ l, f p = .refused ∧ (∀ q ∈ l, q < p → f q ≠ .refused) ∧
        portcheckList f l = .ok p) ∨
      ((∀ p ∈ l, f p ≠ .refused) ∧ portcheckList f l = .exhausted)
  | [], _, _ => .inr ⟨fun p hp => absurd hp (List.not_mem_nil p), rfl⟩
  | a :: rest, hpair, hno => by
    have hpc := List.pairwise_cons.mp hpair
    cases hfa : f a with
    | otherError m =>
      have hIs := hno a (List.mem_cons_self a rest)
      rw [hfa] at hIs
      exact absurd hIs (by simp [DialOutcome.isOther])
    | refused =>
      refine .inl ⟨a, List.mem_cons_self a rest, hfa, ?_, by simp [portcheckList, hfa]⟩
      intro q hq hlt
      rcases List.mem_cons.mp hq with rfl | hmem
      · exact absurd hlt (lt_irrefl q)
      · exact absurd hlt (not_lt.mpr (hpc.1 q hmem).le)
    | success =>
      have hfa' : f a ≠ .refused := by simp [hfa]
      have hstep : portcheckList f (a :: rest) = portcheckList f rest := by
        simp [portcheckList, hfa]
      rcases portcheckList_no_other f rest hpc.2
          (fun p hp => hno p (List.mem_cons_of_mem a hp)) with
        ⟨p, hpmem, hpref, hmin, heq⟩ | ⟨hall, heq⟩
      · refine .inl ⟨p, List.mem_cons_of_mem a hpmem, hpref, ?_, by rw [hstep, heq]⟩
        intro q hq hlt
        rcases List.mem_cons.mp hq with rfl | hmem
        · exact hfa'
        · exact hmin q hmem hlt
      · refine .inr ⟨?_, by rw [hstep, heq]⟩
        intro p hp
        rcases List.mem_cons.mp hp with rfl | hmem
        · exact hfa'
        · exact hall p hmem

/-- C1: the claim says the Port substituted into the compose template
equals the port the allocator returned for the request. The source
hardcodes the literal 5432 into the data struct, so for a request whose
allocated port is 5433 the rendered document carries 5432, not 5433: the
code contradicts the specified intent. -/
theorem c1_compose_port_hardcoded :
    (∀ (pd : String) (s : Service), (composeData pd s).Port = 5432) ∧
    c1Service.Db.Port = 5433 ∧
    (composeData "/prj" c1Service).Port ≠ c1Service.Db.Port ∧
    createDockerComposeFile [TemplatePart.varPort] "/prj" c1Service = "5432" :=
  ⟨fun _ _ => rfl, by decide, by decide, by decide⟩

/-- C2: the claim says that on ResourceExhausted the orchestrator fails
and neither renders nor launches. In the source the error returned by
`portcheck` is assigned to `err` but never tested before `err` is
overwritten by `prepareService`, so the handler renders, launches,
persists and answers 200 with Port 0. -/
theorem c2_port_exhaustion_ignored :
    portcheck exhaustEnv.dialOutcomes = .exhausted ∧
    createService exhaustEnv postReq =
      [Event.portScan .exhausted,
       Event.prepare { exReq with Architecture := "amd64", Db := { exDb with Port := 0 } }
         "/prj/u1/pg1",
       Event.start { exReq with Architecture := "amd64", Db := { exDb with Port := 0 } }
         "/prj/u1/pg1",
       Event.persist "/prj/u1" "u1"
         { exReq with Architecture := "amd64", Db := { exDb with Port := 0, ID := "abc123" } },
       Event.wroteResponse { HostName := "localhost", Port := 0, ContainerID := "abc123" }] := by
  decide

/-- C3: the claim says no request-triggered path terminates the process.
In the source, a body-read failure hits `log.Fatalf`, and a failing
`db.Begin`/`tx.Prepare`/`stmt.Exec` inside `updateSqliteDB` hits
`log.Fatal`: the process dies and no error reaches the HTTP boundary
(on the persistence path the handler never writes the response). -/
theorem c3_request_errors_terminate_process :
    createService badBodyEnv postReq = [Event.fatal "reading from readall body"] ∧
    (updateSqliteDB { okDb with beginOk := false } "/prj/u1" "u1" exReq).1 =
      [Event.fatal "db begin"] ∧
    createService badDbEnv postReq =
      [Event.portScan (.ok 5432),
       Event.prepare { exReq with Architecture := "amd64", Db := { exDb with Port := 5432 } }
         "/prj/u1/pg1",
       Event.start { exReq with Architecture := "amd64", Db := { exDb with Port := 5432 } }
         "/prj/u1/pg1",
       Event.fatal "stmt exec"] := by
  decide

/-- C4: a request whose `userid` differs from the authenticated subject
is rejected with the mismatch error, and the handler performs no
provisioning side effect: no port scan, no render, no launch, no
persisted record. -/
theorem c4_userid_mismatch_no_side_effects (env : Env) (req : Request) (s : service)
    (hm : req.method = "POST")
    (hb : env.readBody = Except.ok ())
    (hu : env.unmarshal = Except.ok s)
    (hne : s.UserID ≠ authUserId env req) :
    createService env req =
      authEvents env req ++ [Event.wroteError 500 "userid doesn't match"] ∧
    ∀ e ∈ createService env req, e.isEffect = false := by
  have htrace : createService env req =
      authEvents env req ++ [Event.wroteError 500 "userid doesn't match"] := by
    unfold createService
    rw [hm, hb, hu]
    simp only [reduceIte]
    rw [if_neg (not_ne_iff.mpr rfl), if_pos hne]
  refine ⟨htrace, ?_⟩
  intro e he
  rw [htrace] at he
  rcases authEvents_cases env req with hA | hA <;> rw [hA] at he
  · simp only [List.nil_append, List.mem_singleton] at he
    subst he
    rfl
  · simp only [List.cons_append, List.nil_append, List.mem_cons,
      List.not_mem_nil, or_false] at he
    rcases he with rfl | rfl <;> rfl

/-- Witness: the mismatching request is rejected without side effects. -/
theorem c4_userid_mismatch_no_side_effects_witness :
    createService mismatchEnv postReq =
      authEvents mismatchEnv postReq ++ [Event.wroteError 500 "userid doesn't match"] ∧
    ∀ e ∈ createService mismatchEnv postReq, e.isEffect = false :=
  c4_userid_mismatch_no_side_effects mismatchEnv postReq { exReq with UserID := "u2" }
    rfl rfl rfl (by decide)

/-- C5 (counterexample): the claim says every outcome other than an
active refusal makes the scan continue to the next candidate. At 5432
the dial ends in a non-refusal error and the source returns `(0, err)`
immediately: the scan terminates instead of continuing. -/
theorem c5_other_error_terminates_scan :
    c5Outcomes 5432 ≠ DialOutcome.refused ∧
    portcheck c5Outcomes = PortResult.scanError 5432 "network is unreachable" ∧
    portcheckList c5Outcomes (5432 :: [5433, 5434, 5435, 5436, 5437, 5438, 5439]) ≠
      portcheckList c5Outcomes [5433, 5434, 5435, 5436, 5437, 5438, 5439] := by
  decide

/-- C5 (amended): the scan continues past a candidate only when the
connection attempt succeeds; the first candidate whose attempt is not a
success ends the scan — with that port when the connection was actively
refused, and with that dial error otherwise. -/
theorem c5_first_non_success_decides (f : Nat → DialOutcome) (p : Nat)
    (hp : p ∈ portRange) (hnp : f p ≠ .success)
    (hpre : ∀ q ∈ portRange, q < p → f q = .success) :
    portcheck f =
      (match f p with
       | .refused => PortResult.ok p
       | .otherError m => PortResult.scanError p m
       | .success => PortResult.exhausted) :=
  portcheckList_first f portRange (by decide) p hp hnp hpre

/-- Witness: with 5432 occupied and 5433 refused, the scan returns
5433. -/
theorem c5_first_non_success_decides_witness :
    portcheck c5WitnessOutcomes = PortResult.ok 5433 :=
  c5_first_non_success_decides c5WitnessOutcomes 5433 (by decide) (by decide)
    (by decide)

/-- C6 (counterexample): the claim says a refused candidate makes the
allocator return the smallest refused candidate. With a non-refusal dial
error at 5432 and a refusal at 5433, the source aborts at 5432 with that
error and never returns 5433. -/
theorem c6_error_preempts_smallest_refused :
    c6Outcomes 5433 = DialOutcome.refused ∧
    (∀ q ∈ portRange, q < 5433 → c6Outcomes q ≠ DialOutcome.refused) ∧
    portcheck c6Outcomes = PortResult.scanError 5432 "i/o timeout" ∧
    portcheck c6Outcomes ≠ PortResult.ok 5433 := by
  decide

/-- C6 (amended): provided no candidate's dial ends in a non-refusal
error, the allocator scans 5432..5439 in ascending order and returns the
smallest actively-refused candidate, and fails with the
ports-occupied error when no candidate is refused. -/
theorem c6_scan_without_other_errors (f : Nat → DialOutcome)
    (hno : ∀ p ∈ portRange, (f p).isOther = false) :
    (∃ p ∈ portRange, f p = .refused ∧ (∀ q ∈ portRange, q < p → f q ≠ .refused) ∧
      portcheck f = .ok p) ∨
    ((∀ p ∈ portRange, f p ≠ .refused) ∧ portcheck f = .exhausted) :=
  portcheckList_no_other f portRange (by decide) hno

/-- Witness: with every port occupied and no dial errors, the scan
exhausts the range. -/
theorem c6_scan_without_other_errors_witness :
    (∃ p ∈ portRange, allBusyOutcomes p = DialOutcome.refused ∧
      (∀ q ∈ portRange, q < p → allBusyOutcomes q ≠ DialOutcome.refused) ∧
      portcheck allBusyOutcomes = PortResult.ok p) ∨
    ((∀ p ∈ portRange, allBusyOutcomes p ≠ DialOutcome.refused) ∧
      portcheck allBusyOutcomes = PortResult.exhausted) :=
  c6_scan_without_other_errors allBusyOutcomes (by decide)

/-- C7: a request for an engine other than postgres is rejected before
any port is scanned: the trace holds only the pre-body writes and the
two rejection writes, and contains no port-scan event. -/
theorem c7_engine_check_before_port_scan (env : Env) (req : Request) (s : service)
    (hm : req.method = "POST")
    (hb : env.readBody = Except.ok ())
    (hu : env.unmarshal = Except.ok s)
    (hid : s.UserID = authUserId env req)
    (ht : s.Db.«Type» ≠ "postgres") :
    createService env req =
      authEvents env req ++
        [Event.wrote ("currently we don't support " ++ s.Db.«Type»),
         Event.wroteError 500 "db type is currently not supported"] ∧
    ∀ pr, Event.portScan pr ∉ createService env req := by
  have htrace : createService env req =
      authEvents env req ++
        [Event.wrote ("currently we don't support " ++ s.Db.«Type»),
         Event.wroteError 500 "db type is currently not supported"] := by
    unfold createService
    rw [hm, hb, hu]
    simp only [reduceIte]
    rw [if_neg (not_ne_iff.mpr rfl), if_neg (not_ne_iff.mpr hid), if_pos ht]
  refine ⟨htrace, ?_⟩
  intro pr hmem
  rw [htrace] at hmem
  rcases authEvents_cases env req with hA | hA <;> rw [hA] at hmem <;>
    simp at hmem

/-- Witness: the mysql request is rejected and its trace holds no
port-scan event. -/
theorem c7_engine_check_before_port_scan_witness :
    createService mysqlEnv postReq =
      authEvents mysqlEnv postReq ++
        [Event.wrote ("currently we don't support " ++ "mysql"),
         Event.wroteError 500 "db type is currently not supported"] ∧
    ∀ pr, Event.portScan pr ∉ createService mysqlEnv postReq :=
  c7_engine_check_before_port_scan mysqlEnv postReq
    { exReq with Db := { exDb with «Type» := "mysql" } } rfl rfl rfl (by decide)
    (by decide)

/-- C8 (counterexample): the claim says an empty lookup result is
treated as an error and never returned as a success. The source checks
only the command error: empty output flows through `lastContainerID` as
a success and the handler answers 200 with an empty ContainerID. -/
theorem c8_empty_id_counterexample :
    lastContainerID emptyEngine = Except.ok "" ∧
    Event.wroteResponse { HostName := "localhost", Port := 5432, ContainerID := "" } ∈
      createService emptyIdEnv postReq :=
  ⟨rfl, by decide⟩

/-- C8 (amended): the lookup queries the engine for the single most
recent container and treats an error result as a lookup error, but an
empty result is returned as a success: the handler completes and its
response carries an empty container identifier. -/
theorem c8_empty_id_returned_as_success (env : Env) (req : Request) (s : service)
    (u : String)
    (hm : req.method = "POST")
    (hv : validateToken env.jwt req.authHeader = .ok u)
    (hb : env.readBody = Except.ok ())
    (hu : env.unmarshal = Except.ok s)
    (hid : s.UserID = u)
    (hty : s.Db.«Type» = "postgres")
    (hp : env.prepareResult = Except.ok ())
    (hst : env.startResult = Except.ok ())
    (hc : env.engine "docker ps --last 1 -q" = Except.ok "")
    (hmar : env.marshalOk = true)
    (hdb : env.db = okDb) :
    lastContainerID env.engine = Except.ok "" ∧
    ∃ p, Event.wroteResponse { HostName := "localhost", Port := p, ContainerID := "" } ∈
      createService env req := by
  have hlast : lastContainerID env.engine = Except.ok "" := by
    unfold lastContainerID; rw [hc]
  have hU : authUserId env req = u := by unfold authUserId; rw [hv]
  have hA : authEvents env req = [] := by unfold authEvents; rw [hv]
  refine ⟨hlast, allocatedPort (portcheck env.dialOutcomes), ?_⟩
  unfold createService
  rw [hm, if_neg (not_ne_iff.mpr rfl)]
  simp only [hb, hu, hA, hU, hid, hty, hp, hst, hlast, hmar, hdb, updateSqliteDB, okDb,
    Bool.not_true, reduceIte, ne_eq, not_true_eq_false, not_false_eq_true]
  simp

/-- Witness: with the engine printing nothing, the response of the
healthy environment carries the empty container identifier. -/
theorem c8_empty_id_returned_as_success_witness :
    lastContainerID emptyIdEnv.engine = Except.ok "" ∧
    ∃ p, Event.wroteResponse { HostName := "localhost", Port := p, ContainerID := "" } ∈
      createService emptyIdEnv postReq :=
  c8_empty_id_returned_as_success emptyIdEnv postReq exReq "u1" rfl rfl rfl rfl rfl rfl
    rfl rfl rfl rfl rfl

/-- C9: rendering is deterministic — identical template, project
directory and service request yield byte-identical compose documents. -/
theorem c9_render_deterministic (t t' : List TemplatePart) (pd pd' : String)
    (s s' : Service) (ht : t = t') (hpd : pd = pd') (hs : s = s') :
    createDockerComposeFile t pd s = createDockerComposeFile t' pd' s' := by
  rw [ht, hpd, hs]

/-- Witness: rendering the README request twice gives the same bytes. -/
theorem c9_render_deterministic_witness :
    createDockerComposeFile [TemplatePart.varPort, TemplatePart.varName] "/prj" c1Service =
      createDockerComposeFile [TemplatePart.varPort, TemplatePart.varName] "/prj"
        c1Service :=
  c9_render_deterministic _ _ _ _ _ _ rfl rfl rfl

/-- C10: when token validation fails the handler writes an error but
does not return; the failed validation leaves the subject as the empty
string, so a body whose `userid` is empty passes the mismatch check and
the whole provisioning workflow runs — render, launch, persist and a
success response all happen after the failed authentication. -/
theorem c10_token_failure_continues (env : Env) (req : Request) (s : service)
    (e cid : String)
    (hm : req.method = "POST")
    (hv : validateToken env.jwt req.authHeader = .error e)
    (hb : env.readBody = Except.ok ())
    (hu : env.unmarshal = Except.ok s)
    (hid : s.UserID = "")
    (hty : s.Db.«Type» = "postgres")
    (hp : env.prepareResult = Except.ok ())
    (hst : env.startResult = Except.ok ())
    (hc : lastContainerID env.engine = Except.ok cid)
    (hmar : env.marshalOk = true)
    (hdb : env.db = okDb) :
    ∃ t, createService env req = Event.wroteError 500 "error validating token" :: t ∧
      t.any Event.isPrepare = true ∧ t.any Event.isStart = true ∧
      t.any Event.isPersist = true ∧ ∃ r, Event.wroteResponse r ∈ t := by
  have hU : authUserId env req = "" := by unfold authUserId; rw [hv]
  have hA : authEvents env req = [Event.wroteError 500 "error validating token"] := by
    unfold authEvents; rw [hv]
  have htrace : createService env req =
      Event.wroteError 500 "error validating token" ::
        [Event.portScan (portcheck env.dialOutcomes),
         Event.prepare
           { s with
             Architecture := env.architecture,
             Db := { s.Db with Port := allocatedPort (portcheck env.dialOutcomes) } }
           (env.projectDir ++ "/" ++ s.UserID ++ "/" ++ s.Db.Name),
         Event.start
           { s with
             Architecture := env.architecture,
             Db := { s.Db with Port := allocatedPort (portcheck env.dialOutcomes) } }
           (env.projectDir ++ "/" ++ s.UserID ++ "/" ++ s.Db.Name),
         Event.persist (env.projectDir ++ "/" ++ s.UserID) s.UserID
           { s with
             Architecture := env.architecture,
             Db := { s.Db with
                     ID := cid,
                     Port := allocatedPort (portcheck env.dialOutcomes) } },
         Event.wroteResponse
           { HostName := "localhost",
             Port := allocatedPort (portcheck env.dialOutcomes),
             ContainerID := cid }] := by
    unfold createService
    rw [hm, if_neg (not_ne_iff.mpr rfl)]
    simp only [hb, hu, hA, hU, hid, hty, hp, hst, hc, hmar, hdb, updateSqliteDB, okDb,
      Bool.not_true, reduceIte, ne_eq, not_true_eq_false, not_false_eq_true]
    simp
  refine ⟨_, htrace, rfl, rfl, rfl,
    ⟨{ HostName := "localhost", Port := allocatedPort (portcheck env.dialOutcomes),
       ContainerID := cid }, ?_⟩⟩
  simp

/-- Witness: with an unverifiable token and an empty `userid`, the
handler writes the token error and still provisions end to end. -/
theorem c10_token_failure_continues_witness :
    ∃ t, createService badTokenEnv postReq =
        Event.wroteError 500 "error validating token" :: t ∧
      t.any Event.isPrepare = true ∧ t.any Event.isStart = true ∧
      t.any Event.isPersist = true ∧ ∃ r, Event.wroteResponse r ∈ t :=
  c10_token_failure_continues badTokenEnv postReq { exReq with UserID := "" }
    "crypto/rsa: verification error" "abc123" rfl rfl rfl rfl rfl rfl rfl rfl rfl rfl
    rfl
